import Mathlib

/-!
Shallow embedding of the learning-session state controller of the Tutor
repository, as implemented in
`frontend/src/components/learning/LearningSession.tsx`,
`frontend/src/components/learning/LearningSessionSimple.tsx` and
`frontend/src/services/aiQuizGenerator.ts`.

Conventions of the embedding:
* JavaScript numbers that are used as counters or ids are modelled as `Nat`;
  the derived `accuracy_rate` is modelled as `Rat` (the source formula
  `(correct / attempted) * 100` is exact rational arithmetic on the values
  that occur).
* `Date.now()` and ISO timestamps are passed in as explicit parameters
  (`now : Nat`, `startedAt : String`), since the component reads them from
  the environment.
* `Math.random()` draws are passed in as an explicit function
  `rand : Nat -> Fin 4` giving the draw used for question `i`.
* Network calls are modelled by explicit outcome parameters: a rejected
  promise is `none` / `false`, a resolved one carries its payload.
* React `useState` setters are modelled by a record update on an explicit
  component-state record; one event-handler invocation is one state
  transition. Presentation-only state (`loading`, `createDialogOpen`, the
  dialog draft `newSessionData`) is outside the model; `setError` /
  `setSuccessMessage` are kept because the spec claims talk about surfaced
  errors.
-/

/-- JavaScript `x || d` for an optional number (`0`, `null` and `undefined`
are falsy). Used for `q.difficulty || 0.5` and similar defaults. -/
def jsOrRat (x : Option Rat) (d : Rat) : Rat :=
  match x with
  | none => d
  | some v => if v = 0 then d else v

/-- JavaScript `x || d` for an optional natural number (`0` is falsy). -/
def jsOrNat (x : Option Nat) (d : Nat) : Nat :=
  match x with
  | none => d
  | some v => if v = 0 then d else v

/-- JavaScript `x || d` for an optional string (the empty string is falsy). -/
def jsOrStr (x : Option String) (d : String) : String :=
  match x with
  | none => d
  | some s => if s = "" then d else s

/-- First index at which `p` holds, as an `Option`; recursion mirrors the
semantics of JavaScript `Array.prototype.findIndex` (first match wins). -/
def findIndexO (p : α → Bool) : List α → Option Nat
  | [] => none
  | a :: l => if p a then some 0 else (findIndexO p l).map (· + 1)

/-- JavaScript `Array.prototype.findIndex`: the first matching index, or
`-1` when no element matches. -/
def jsFindIndex (p : α → Bool) (l : List α) : Int :=
  match findIndexO p l with
  | some i => (i : Int)
  | none => -1

/-! ## `services/aiQuizGenerator.ts` -/

/-- The `options` object of a service question (`aiQuizGenerator.ts`,
interface `Question`): four labelled option texts. -/
structure QuizOptions where
  A : String
  B : String
  C : String
  D : String
deriving DecidableEq, Repr

/-- `aiQuizGenerator.ts` interface `Question`. -/
structure AIQuestion where
  id : String
  question : String
  options : QuizOptions
  correct_answer : String
  explanation : String
  subject : Option String
  difficulty : Option Rat
deriving DecidableEq, Repr

/-- `aiQuizGenerator.ts` interface `QuizGenerationRequest`. -/
structure QuizGenerationRequest where
  subject : String
  topic : String
  difficulty : Rat
  numQuestions : Nat
deriving DecidableEq, Repr

/-- `AIQuizGeneratorService.generateQuestionText` (aiQuizGenerator.ts lines
62-93): template dictionary lookup by subject, indexed by
`questionNumber % templates.length`. -/
def generateQuestionText (subject topic : String) (questionNumber : Nat) : String :=
  let templates : List String :=
    if subject = "Mathematics" then
      ["What is the result of this " ++ topic ++ " problem?",
       "Which formula is used for " ++ topic ++ "?",
       "How do you solve this " ++ topic ++ " equation?"]
    else if subject = "Science" then
      ["What is the main principle of " ++ topic ++ "?",
       "Which process describes " ++ topic ++ "?",
       "What happens during " ++ topic ++ "?"]
    else if subject = "History" then
      ["When did the " ++ topic ++ " occur?",
       "Who was involved in " ++ topic ++ "?",
       "What was the cause of " ++ topic ++ "?"]
    else if subject = "English" then
      ["What is the meaning of this " ++ topic ++ " concept?",
       "Which technique is used in " ++ topic ++ "?",
       "How does " ++ topic ++ " affect the text?"]
    else
      ["What is important about " ++ topic ++ "?",
       "How does " ++ topic ++ " work?",
       "What are the key features of " ++ topic ++ "?"]
  (templates.get? (questionNumber % templates.length)).getD ""

/-- `AIQuizGeneratorService.generateOptions` (aiQuizGenerator.ts lines
95-120): option-set dictionary lookup by subject, indexed by
`questionNumber % sets.length`. -/
def generateOptions (subject : String) (questionNumber : Nat) : QuizOptions :=
  let sets : List QuizOptions :=
    if subject = "Mathematics" then
      [⟨"x = 5", "x = 10", "x = 15", "x = 20"⟩,
       ⟨"Pythagorean theorem", "Quadratic formula", "Chain rule", "Distance formula"⟩]
    else if subject = "Science" then
      [⟨"Photosynthesis", "Respiration", "Digestion", "Circulation"⟩,
       ⟨"Newton\x27s First Law", "Newton\x27s Second Law", "Newton\x27s Third Law", "Law of Gravity"⟩]
    else if subject = "History" then
      [⟨"1776", "1789", "1812", "1865"⟩,
       ⟨"George Washington", "Thomas Jefferson", "Abraham Lincoln", "Benjamin Franklin"⟩]
    else if subject = "English" then
      [⟨"Metaphor", "Simile", "Alliteration", "Personification"⟩,
       ⟨"First person", "Second person", "Third person limited", "Third person omniscient"⟩]
    else
      [⟨"Option A", "Option B", "Option C", "Option D"⟩]
  (sets.get? (questionNumber % sets.length)).getD ⟨"", "", "", ""⟩

/-- The `try` block of `AIQuizGeneratorService.generateQuiz`
(aiQuizGenerator.ts lines 38-55): builds `numQuestions` questions; question
`i` gets id `q_<ts>_<i>` (with `ts` the `Date.now()` reading), a template
question text and option set for `questionNumber = i + 1`, and a random
correct-answer LETTER drawn from `[A, B, C, D]` by `rand i`. -/
def generateQuizBody (request : QuizGenerationRequest) (ts : Nat)
    (rand : Nat → Fin 4) : List AIQuestion :=
  (List.range request.numQuestions).map (fun i =>
    { id := "q_" ++ toString ts ++ "_" ++ toString i
      question := generateQuestionText request.subject request.topic (i + 1)
      options := generateOptions request.subject (i + 1)
      correct_answer := (["A", "B", "C", "D"].get? (rand i)).getD ""
      explanation := "This question tests your understanding of " ++ request.topic
        ++ " in " ++ request.subject ++ "."
      subject := some request.subject
      difficulty := some request.difficulty })

/-- `AIQuizGeneratorService.getFallbackQuestions` (aiQuizGenerator.ts lines
122-139): a single hard-coded question; note its `correct_answer` is the
letter `A` while its option texts are full phrases. -/
def getFallbackQuestions (request : QuizGenerationRequest) : List AIQuestion :=
  [{ id := "fallback_1"
     question := "What is a fundamental concept in " ++ request.topic ++ "?"
     options := ⟨"Basic principle", "Advanced theory", "Complex formula", "Simple rule"⟩
     correct_answer := "A"
     explanation := "This is a basic question about " ++ request.topic ++ " in "
       ++ request.subject ++ "."
     subject := some request.subject
     difficulty := some request.difficulty }]

/-- `AIQuizGeneratorService.generateQuiz` including its `catch`: an internal
failure (`errored = true`) is swallowed and replaced by the fallback list;
the promise never rejects. -/
def generateQuiz (request : QuizGenerationRequest) (ts : Nat)
    (rand : Nat → Fin 4) (errored : Bool) : List AIQuestion :=
  if errored then getFallbackQuestions request
  else generateQuizBody request ts rand

/-! ## `components/learning/LearningSession.tsx` -/

/-- `LearningSession.tsx` interface `Question` (lines 32-39): option texts as
a flat list, the correct answer as a string compared against the selected
option text. -/
structure Question where
  id : String
  question : String
  options : List String
  correct_answer : String
  explanation : String
  difficulty : Rat
deriving DecidableEq, Repr

/-- `LearningSession.tsx` interface `LearningSessionData` (lines 41-52). -/
structure LearningSessionData where
  id : Nat
  session_type : String
  subject_area : String
  topic : String
  status : String
  questions_attempted : Nat
  questions_correct : Nat
  accuracy_rate : Rat
  duration_minutes : Nat
  started_at : String
deriving DecidableEq, Repr

/-- The `useState` cells of the `LearningSession` component (lines 55-65)
that carry session/progression state. `loading`, `createDialogOpen` and the
dialog draft are presentation-only and outside the model. -/
structure ComponentState where
  sessions : List LearningSessionData
  activeSession : Option LearningSessionData
  currentQuestion : Option Question
  currentQuestions : List Question
  selectedAnswer : String
  showResults : Bool
  isCorrect : Bool
  explanation : String
  error : String
  successMessage : String
deriving DecidableEq, Repr

/-- The mapping applied to each generated service question inside
`createNewSession` and `startSession` (LearningSession.tsx lines 235-242 and
352-359): options become the list `[A, B, C, D]` of option texts, while
`correct_answer` is copied over UNCHANGED (for AI-generated questions this
is a letter); `q.difficulty || 0.5` with JavaScript falsiness. -/
def convertAIQuestion (q : AIQuestion) : Question :=
  { id := q.id
    question := q.question
    options := [q.options.A, q.options.B, q.options.C, q.options.D]
    correct_answer := q.correct_answer
    explanation := q.explanation
    difficulty := jsOrRat q.difficulty (1 / 2) }

/-- The new-session dialog fields (subject area, topic, session type). -/
structure NewSessionInput where
  subject_area : String
  topic : String
  session_type : String
deriving DecidableEq, Repr

/-- `createNewSession` (LearningSession.tsx lines 220-280). The quiz request
always asks for 4 questions at difficulty 0.5. `backendOk` is the outcome of
the awaited `learningAPI.createSession` call: when it rejects the `catch`
sets the error message and nothing is added; when it resolves, the new local
session (id `Date.now()`, zero counters, status `active`) is PREPENDED to
`sessions` with no duplicate-id check, becomes active, and the generated
questions are installed (`currentQuestion` is set only when the list is
non-empty). `errored` is the internal-failure flag of the quiz generator. -/
def createNewSession (s : ComponentState) (nd : NewSessionInput) (ts : Nat)
    (rand : Nat → Fin 4) (errored : Bool) (backendOk : Bool) (now : Nat)
    (startedAt : String) : ComponentState :=
  let quizRequest : QuizGenerationRequest :=
    { subject := nd.subject_area, topic := nd.topic
      difficulty := 1 / 2, numQuestions := 4 }
  let aiQuestions := generateQuiz quizRequest ts rand errored
  let questions := aiQuestions.map convertAIQuestion
  if backendOk then
    let newSession : LearningSessionData :=
      { id := now
        session_type := nd.session_type
        subject_area := nd.subject_area
        topic := nd.topic
        status := "active"
        questions_attempted := 0
        questions_correct := 0
        accuracy_rate := 0
        duration_minutes := 0
        started_at := startedAt }
    { s with
      sessions := newSession :: s.sessions
      activeSession := some newSession
      currentQuestions := questions
      currentQuestion := if questions.length > 0 then questions.head? else s.currentQuestion
      successMessage := "AI-powered quiz created for " ++ nd.topic ++ "!" }
  else
    { s with error := "Failed to create AI-powered learning session" }

/-- `handleAnswerSubmit` (LearningSession.tsx lines 282-316). Guard: returns
unchanged unless a question is loaded, an answer is selected and a session
is active. Computes `isCorrect` by exact (case-sensitive) string equality of
the selected option text with `correct_answer`, sets the result view,
increments `questions_attempted`, increments `questions_correct` iff
correct, recomputes `accuracy_rate = (correct / attempted) * 100` from the
new counters, and mirrors the updated session into the sessions list. The
trailing `learningAPI.logInteraction` call is awaited inside `try/catch`
whose `catch` only logs: the resulting state does not depend on the logging
outcome `logOk`. -/
def handleAnswerSubmit (s : ComponentState) (logOk : Bool) : ComponentState :=
  match s.currentQuestion, s.activeSession with
  | some q, some a =>
    if s.selectedAnswer = "" then s
    else
      let isC : Bool := s.selectedAnswer == q.correct_answer
      let updatedSession : LearningSessionData :=
        { a with
          questions_attempted := a.questions_attempted + 1
          questions_correct := a.questions_correct + (if isC then 1 else 0)
          accuracy_rate :=
            (((a.questions_correct + (if isC then 1 else 0) : Nat) : Rat)
              / ((a.questions_attempted + 1 : Nat) : Rat)) * 100 }
      { s with
        isCorrect := isC
        showResults := true
        explanation := q.explanation
        activeSession := some updatedSession
        sessions := s.sessions.map (fun x => if x.id = a.id then updatedSession else x) }
  | _, _ => s

/-- `handleNextQuestion` (LearningSession.tsx lines 318-335). Guard: returns
unchanged unless a session is active and questions are loaded. Finds the
index of the current question by id (JavaScript `findIndex`, `-1` when
absent); if it is not the last index, moves to the next question and clears
the per-question transient fields; otherwise clears the active session,
current question and question list and sets the completion message — the
sessions list (and hence the stored `status`) is NOT touched. -/
def handleNextQuestion (s : ComponentState) : ComponentState :=
  match s.activeSession with
  | none => s
  | some _ =>
    if s.currentQuestions.length = 0 then s
    else
      let currentIndex : Int :=
        jsFindIndex
          (fun q => match s.currentQuestion with
            | some cq => q.id == cq.id
            | none => false)
          s.currentQuestions
      if currentIndex < (s.currentQuestions.length : Int) - 1 then
        { s with
          currentQuestion := s.currentQuestions.get? (currentIndex + 1).toNat
          selectedAnswer := ""
          showResults := false
          explanation := "" }
      else
        { s with
          currentQuestion := none
          activeSession := none
          currentQuestions := []
          successMessage := "Session completed! Great job!" }

/-- `pauseSession` (LearningSession.tsx lines 395-410): flips the session
status to `paused` in the sessions list, detaches it from active and clears
the current question; counters in the stored session are preserved. (The
backend call on line 399 is commented out in the source, so the `catch`
branch is unreachable.) -/
def pauseSession (s : ComponentState) : ComponentState :=
  match s.activeSession with
  | none => s
  | some a =>
    let updatedSession := { a with status := "paused" }
    { s with
      sessions := s.sessions.map (fun x => if x.id = updatedSession.id then updatedSession else x)
      activeSession := none
      currentQuestion := none
      successMessage := "Session paused successfully!" }

/-- `startSession` (LearningSession.tsx lines 337-376), the resume/continue
path: regenerates a FRESH 4-question quiz for the session topic via
`aiQuizGenerator.generateQuiz`, installs it with `currentQuestion :=
questions[0]`, and re-attaches the given stored session (its counters are
carried over unchanged). -/
def startSession (s : ComponentState) (session : LearningSessionData) (ts : Nat)
    (rand : Nat → Fin 4) (errored : Bool) : ComponentState :=
  let quizRequest : QuizGenerationRequest :=
    { subject := session.subject_area, topic := session.topic
      difficulty := 1 / 2, numQuestions := 4 }
  let aiQuestions := generateQuiz quizRequest ts rand errored
  let questions := aiQuestions.map convertAIQuestion
  { s with
    currentQuestions := questions
    activeSession := some session
    currentQuestion := questions.head?
    selectedAnswer := ""
    showResults := false
    explanation := "" }

/-- The user events available on the session-in-progress screen. `select`
is the radio-group change, `submit` the Submit Answer button (with the
outcome of the fire-and-forget `logInteraction` call), `next` the Next
Question / Complete Session button, `pause` the Pause Session button. -/
inductive UIEvent where
  | select (option : String)
  | submit (logOk : Bool)
  | next
  | pause
deriving DecidableEq, Repr

/-- One user event dispatched through the component as rendered
(LearningSession.tsx lines 427-519): the question view exists only while
`activeSession && currentQuestion`; the radio group, the Submit Answer
button (disabled while no answer is selected) and the Pause button are
rendered only while `!showResults`; the Next Question / Complete Session
button only while `showResults`. An event whose control is not rendered
(or disabled) leaves the state unchanged. -/
def uiStep (s : ComponentState) (e : UIEvent) : ComponentState :=
  match e with
  | .select opt =>
    if s.activeSession.isSome && s.currentQuestion.isSome && !s.showResults then
      { s with selectedAnswer := opt }
    else s
  | .submit logOk =>
    if s.activeSession.isSome && s.currentQuestion.isSome && !s.showResults
        && s.selectedAnswer != "" then
      handleAnswerSubmit s logOk
    else s
  | .next =>
    if s.activeSession.isSome && s.currentQuestion.isSome && s.showResults then
      handleNextQuestion s
    else s
  | .pause =>
    if s.activeSession.isSome && s.currentQuestion.isSome && !s.showResults then
      pauseSession s
    else s

/-- Fold a list of user events over the component state. -/
def run (s : ComponentState) (es : List UIEvent) : ComponentState :=
  es.foldl uiStep s

/-- The progression invariant maintained by the component for the active
session: `questions_correct` never exceeds `questions_attempted`; the loaded
question list has pairwise-distinct ids; and `questions_attempted` is
bounded by the position of the current question (strictly, while awaiting an
answer; inclusively, while showing a result), hence by the list length. -/
def SessionInv (s : ComponentState) : Prop :=
  match s.activeSession with
  | none => True
  | some a =>
    a.questions_correct ≤ a.questions_attempted ∧
    (s.currentQuestions.map (fun q => q.id)).Nodup ∧
    (match s.currentQuestion with
     | none => a.questions_attempted = 0
     | some q =>
       ∃ i, findIndexO (fun x => x.id == q.id) s.currentQuestions = some i ∧
         a.questions_attempted ≤ i + (if s.showResults then 1 else 0))

/-! ## `components/learning/LearningSessionSimple.tsx` (`createNewSession`) -/

/-- An example record of a lesson (`Array<{[key: string]: any}>` in the
source), modelled as a key/value list. -/
def ExampleRec := List (String × String)
deriving DecidableEq, Repr

/-- The `content` field of a backend lesson payload: either a plain string
or a structured object with optional fields
(LearningSessionSimple.tsx lines 623-639 branch on `typeof ... === 'string'`). -/
inductive RawLessonContent where
  | strContent (s : String)
  | objContent (full_content introduction : Option String)
      (key_concepts : Option (List String)) (examples : Option (List ExampleRec))
deriving DecidableEq, Repr

/-- The optional `lesson` object of a `lessonAPI.generateLesson` response. -/
structure RawLesson where
  id : Option String
  title : Option String
  content : Option RawLessonContent
  key_concepts : Option (List String)
  estimated_duration : Option Nat
deriving DecidableEq, Repr

/-- `lessonResponse.data` of `lessonAPI.generateLesson`. -/
structure LessonData where
  lesson : Option RawLesson
deriving DecidableEq, Repr

/-- The strict internal lesson content built by `createNewSession`
(LearningSessionSimple.tsx interface `LessonContent`, lines 485-493). -/
structure SimpleLessonContent where
  title : String
  full_content : String
  introduction : String
  key_concepts : List String
  examples : List ExampleRec
deriving DecidableEq, Repr

/-- A raw question of a `quizAPI.generateQuiz` response
(LearningSessionSimple.tsx lines 679-686 read these fields). -/
structure RawQuestion where
  question : String
  options : Option (List String)
  option_a : String
  option_b : String
  option_c : String
  option_d : String
  correct_answer : String
  explanation : Option String
  difficulty_level : Option Rat
deriving DecidableEq, Repr

/-- The optional `quiz` object of a `quizAPI.generateQuiz` response. -/
structure RawQuiz where
  questions : Option (List RawQuestion)
deriving DecidableEq, Repr

/-- `quizResponse.data` of `quizAPI.generateQuiz`: the questions may sit
under `data.quiz.questions` or directly under `data.questions`. -/
structure QuizData where
  quiz : Option RawQuiz
  questions : Option (List RawQuestion)
deriving DecidableEq, Repr

/-- `LearningSessionSimple.tsx` interface `Question` (lines 476-483). -/
structure SimpleQuestion where
  id : String
  question : String
  options : List String
  correct_answer : String
  explanation : String
  difficulty : Rat
deriving DecidableEq, Repr

/-- `LearningSessionSimple.tsx` interface `LearningSessionData`
(lines 495-513); the fields `createNewSession` writes. -/
structure SimpleSessionData where
  id : String
  session_type : String
  subject_area : String
  topic : String
  status : String
  content : Option SimpleLessonContent
  duration_estimate : Option Nat
  questions_attempted : Nat
  questions_correct : Nat
  accuracy_rate : Rat
  duration_minutes : Nat
  started_at : String
  difficulty_level : Rat
  created_at : String
deriving DecidableEq, Repr

/-- The session/progression `useState` cells of the `LearningSessionSimple`
component that `createNewSession` touches. -/
structure SimpleState where
  sessions : List SimpleSessionData
  activeSession : Option SimpleSessionData
  currentQuestion : Option SimpleQuestion
  currentQuestions : List SimpleQuestion
  questionStartTime : Option Nat
  error : String
  successMessage : String
deriving DecidableEq, Repr

/-- JavaScript truthiness of `lessonData.lesson?.content` (an empty string
is falsy, any object is truthy). -/
def lessonContentTruthy : Option RawLessonContent → Bool
  | none => false
  | some (.strContent s) => s != ""
  | some (.objContent _ _ _ _) => true

/-- `content.key_concepts` under JavaScript semantics: `undefined` when the
content is a plain string. -/
def rawContentKeyConcepts : RawLessonContent → Option (List String)
  | .strContent _ => none
  | .objContent _ _ kcs _ => kcs

/-- `content.examples` under JavaScript semantics: `undefined` when the
content is a plain string. -/
def rawContentExamples : RawLessonContent → Option (List ExampleRec)
  | .strContent _ => none
  | .objContent _ _ _ exs => exs

/-- JavaScript `String.prototype.substring(0, 300)`. -/
def jsSubstring300 (s : String) : String :=
  ⟨s.data.take 300⟩

/-- The default examples list of the lesson branch
(LearningSessionSimple.tsx lines 637-638 and 645-647). -/
def defaultExamples (topic : String) : List ExampleRec :=
  [[("Basic Application", "How " ++ topic ++ " applies in real-world scenarios")],
   [("Advanced Implementation", "Complex applications of " ++ topic)]]

/-- The lesson-content mapping of `createNewSession`
(LearningSessionSimple.tsx lines 623-649): when `lessonData.lesson?.content`
is truthy the backend fields are normalized with `||`-style defaults,
otherwise an all-default content object is built. -/
def mapLessonContent (lessonData : LessonData) (nd : NewSessionInput) : SimpleLessonContent :=
  let defaultIntro := "Welcome to this comprehensive lesson on " ++ nd.topic ++ "."
  let defaultTitle := nd.topic ++ " - " ++ nd.subject_area
  let defaultConcepts := ["Foundation principles", "Practical applications",
    "Problem-solving strategies"]
  match lessonData.lesson with
  | some l =>
    match l.content with
    | some c =>
      if lessonContentTruthy (some c) then
        { title := jsOrStr l.title defaultTitle
          full_content :=
            match c with
            | .strContent s => s
            | .objContent fc intro _ _ => jsOrStr fc (jsOrStr intro defaultIntro)
          introduction :=
            match c with
            | .strContent s => jsSubstring300 s ++ "..."
            | .objContent _ intro _ _ => jsOrStr intro defaultIntro
          key_concepts := (l.key_concepts.orElse (fun _ => rawContentKeyConcepts c)).getD defaultConcepts
          examples := (rawContentExamples c).getD (defaultExamples nd.topic) }
      else
        { title := defaultTitle, full_content := defaultIntro,
          introduction := defaultIntro, key_concepts := defaultConcepts,
          examples := defaultExamples nd.topic }
    | none =>
      { title := defaultTitle, full_content := defaultIntro,
        introduction := defaultIntro, key_concepts := defaultConcepts,
        examples := defaultExamples nd.topic }
  | none =>
    { title := defaultTitle, full_content := defaultIntro,
      introduction := defaultIntro, key_concepts := defaultConcepts,
      examples := defaultExamples nd.topic }

/-- `quizData.quiz?.questions || quizData.questions || []`
(LearningSessionSimple.tsx line 673); note a present-but-empty array is
truthy in JavaScript and is therefore kept. -/
def extractQuestions (quizData : QuizData) : List RawQuestion :=
  match quizData.quiz with
  | some qz =>
    match qz.questions with
    | some l => l
    | none => quizData.questions.getD []
  | none => quizData.questions.getD []

/-- The per-question mapping of the quiz branch
(LearningSessionSimple.tsx lines 679-686). -/
def mapRawQuestion (index : Nat) (q : RawQuestion) : SimpleQuestion :=
  { id := "q_" ++ toString index
    question := q.question
    options := q.options.getD [q.option_a, q.option_b, q.option_c, q.option_d]
    correct_answer := q.correct_answer
    explanation := jsOrStr q.explanation "No explanation available."
    difficulty := jsOrRat q.difficulty_level (1 / 2) }

/-- `createNewSession` of `LearningSessionSimple.tsx` (lines 601-737).
`genLesson` / `genQuiz` are the outcomes of the awaited
`lessonAPI.generateLesson` / `quizAPI.generateQuiz` calls (`none` = the
promise rejected); only the branch selected by `session_type` consults its
outcome. A rejected generation call, or a quiz response whose extracted
question list is empty (the `throw new Error('No questions generated')` on
line 676), lands in the outer `catch`, which sets the error message and
leaves every other state cell unchanged. `backendSession` is the outcome of
the inner best-effort `learningAPI.createSession` call (`none` = rejected,
`some dataId` = resolved with the optional `data.id`); its failure is
caught locally and does not stop session creation. -/
def createNewSessionSimple (s : SimpleState) (nd : NewSessionInput)
    (genLesson : Option LessonData) (genQuiz : Option QuizData)
    (backendSession : Option (Option String)) (now : Nat) (nowIso : String) :
    SimpleState :=
  if nd.session_type = "lesson" then
    match genLesson with
    | none => { s with error := "Failed to create AI-powered learning session" }
    | some lessonData =>
      let newSession : SimpleSessionData :=
        { id := jsOrStr (lessonData.lesson.bind (fun l => l.id)) (toString now)
          subject_area := nd.subject_area
          topic := nd.topic
          session_type := "lesson"
          status := "active"
          content := some (mapLessonContent lessonData nd)
          duration_estimate :=
            some (jsOrNat (lessonData.lesson.bind (fun l => l.estimated_duration)) 20)
          questions_attempted := 0
          questions_correct := 0
          accuracy_rate := 0
          duration_minutes := 0
          started_at := nowIso
          difficulty_level := 1 / 2
          created_at := nowIso }
      { s with
        sessions := newSession :: s.sessions
        activeSession := some newSession
        successMessage := "AI-powered lesson created for " ++ nd.topic ++ "!" }
  else
    match genQuiz with
    | none => { s with error := "Failed to create AI-powered learning session" }
    | some quizData =>
      let questionsData := extractQuestions quizData
      if questionsData.length = 0 then
        { s with error := "Failed to create AI-powered learning session" }
      else
        let questions := questionsData.mapIdx mapRawQuestion
        let sessionId : String :=
          match backendSession with
          | some dataId => jsOrStr dataId (toString now)
          | none => toString now
        let newSession : SimpleSessionData :=
          { id := sessionId
            subject_area := nd.subject_area
            topic := nd.topic
            session_type := nd.session_type
            status := "active"
            content := none
            duration_estimate := none
            questions_attempted := 0
            questions_correct := 0
            accuracy_rate := 0
            duration_minutes := 0
            started_at := nowIso
            difficulty_level := 1 / 2
            created_at := nowIso }
        { s with
          sessions := newSession :: s.sessions
          activeSession := some newSession
          currentQuestions := questions
          currentQuestion := if questions.length > 0 then questions.head? else s.currentQuestion
          questionStartTime := if questions.length > 0 then some now else s.questionStartTime
          successMessage := "AI-powered quiz created for " ++ nd.topic ++ "!" }

/-! ## Concrete executions used as witnesses and counterexamples -/

/-- The component state before any session exists (all cells at their
`useState` initial values). -/
def emptyComponentState : ComponentState :=
  { sessions := [], activeSession := none, currentQuestion := none,
    currentQuestions := [], selectedAnswer := "", showResults := false,
    isCorrect := false, explanation := "", error := "", successMessage := "" }

/-- A fixed random draw: every question gets correct-answer letter `A`. -/
def cexRand : Nat → Fin 4 := fun _ => 0

/-- Dialog input used by the concrete executions. -/
def cexNd : NewSessionInput :=
  { subject_area := "History", topic := "The Revolution", session_type := "practice" }

/-- State right after creating a practice session (4 AI-generated History
questions, `Date.now()` readings 0 and 1, backend call succeeds). -/
def cexCreated : ComponentState :=
  createNewSession emptyComponentState cexNd 0 cexRand false true 1 "t0"

/-- `cexCreated` after selecting the option text designated correct by the
generator (letter `A` names option text `George Washington` of question 1)
and submitting it. -/
def c3Submitted : ComponentState :=
  run cexCreated [UIEvent.select "George Washington", UIEvent.submit true]

/-- `cexCreated` after answering two questions (submit + advance twice) and
pausing on question index 2: the stored session has `questions_attempted = 2`
and status `paused`. -/
def cexPaused : ComponentState :=
  run cexCreated
    [UIEvent.select "George Washington", UIEvent.submit true, UIEvent.next,
     UIEvent.select "1776", UIEvent.submit true, UIEvent.next,
     UIEvent.pause]

/-- Resuming the paused session through `startSession` (the Resume button):
a fresh 4-question quiz is generated and progression restarts at its head. -/
def cexResumed : ComponentState :=
  match cexPaused.sessions.head? with
  | some p => startSession cexPaused p 9 cexRand false
  | none => cexPaused

/-- The resumed session after answering three more questions: its
`questions_attempted` counter reaches 5 against a 4-question list. -/
def cexOverrun : ComponentState :=
  run cexResumed
    [UIEvent.select "George Washington", UIEvent.submit true, UIEvent.next,
     UIEvent.select "1776", UIEvent.submit true, UIEvent.next,
     UIEvent.select "George Washington", UIEvent.submit true]

/-- `cexCreated` after answering all 4 questions; the component is showing
the result of the last question. -/
def c5LastShowing : ComponentState :=
  run cexCreated
    [UIEvent.select "George Washington", UIEvent.submit true, UIEvent.next,
     UIEvent.select "1776", UIEvent.submit true, UIEvent.next,
     UIEvent.select "George Washington", UIEvent.submit true, UIEvent.next,
     UIEvent.select "1776", UIEvent.submit true]

/-- Advancing from the last question: the session-complete branch of
`handleNextQuestion`. -/
def c5Completed : ComponentState :=
  uiStep c5LastShowing UIEvent.next

/-- The index of the current question inside the loaded question list, as
`handleNextQuestion` computes it (JavaScript `findIndex` by id over
`currentQuestions`, `-1` when no question is current). -/
def currentIndexOf (s : ComponentState) : Int :=
  jsFindIndex
    (fun q => match s.currentQuestion with
      | some cq => q.id == cq.id
      | none => false)
    s.currentQuestions

/-- The first default demo question of `getQuestionsForTopic`
(LearningSession.tsx lines 139-146): correct answer `Paris` among
`[London, Berlin, Paris, Madrid]`. -/
def parisQuestion : Question :=
  { id := "1"
    question := "What is the capital of France?"
    options := ["London", "Berlin", "Paris", "Madrid"]
    correct_answer := "Paris"
    explanation := "Paris is the capital and most populous city of France."
    difficulty := 3 / 10 }

/-- The demo fallback session of `fetchSessions`
(LearningSession.tsx lines 201-213). -/
def demoSession : LearningSessionData :=
  { id := 1
    session_type := "practice"
    subject_area := "General Knowledge"
    topic := "Mixed Topics"
    status := "active"
    questions_attempted := 0
    questions_correct := 0
    accuracy_rate := 0
    duration_minutes := 0
    started_at := "2025-01-01T00:00:00Z" }

/-- A state awaiting an answer on the Paris question with the
(case-mismatched) option text `paris` selected. -/
def parisState : ComponentState :=
  { sessions := [demoSession]
    activeSession := some demoSession
    currentQuestion := some parisQuestion
    currentQuestions := [parisQuestion]
    selectedAnswer := "paris"
    showResults := false
    isCorrect := false
    explanation := ""
    error := ""
    successMessage := "" }

/-- A state showing the result of the last (single) question of its quiz. -/
def showingResultState : ComponentState :=
  { sessions := [demoSession]
    activeSession := some { demoSession with questions_attempted := 1 }
    currentQuestion := some parisQuestion
    currentQuestions := [parisQuestion]
    selectedAnswer := "paris"
    showResults := true
    isCorrect := false
    explanation := "Paris is the capital and most populous city of France."
    error := ""
    successMessage := "" }

/-- The component state of `LearningSessionSimple` with all cells at their
initial values. -/
def simpleEmptyState : SimpleState :=
  { sessions := [], activeSession := none, currentQuestion := none,
    currentQuestions := [], questionStartTime := none, error := "",
    successMessage := "" }

/-- Dialog input requesting a practice quiz. -/
def quizNd : NewSessionInput :=
  { subject_area := "Computer Science", topic := "Machine Learning",
    session_type := "practice" }

/-- A quiz response whose `quiz.questions` array is present but empty. -/
def emptyQuizData : QuizData :=
  { quiz := some { questions := some [] }, questions := none }

/-- A component state already holding a session with id 1. -/
def c9Base : ComponentState :=
  { emptyComponentState with sessions := [demoSession] }

/-- Creating a second session while `Date.now()` again reads 1: the new
session carries the same id as the stored one. -/
def c9Dup : ComponentState :=
  createNewSession c9Base cexNd 0 cexRand false true 1 "t1"

/-! ## Auxiliary lemmas -/

theorem string_append_cancel_left (a x y : String) (h : a ++ x = a ++ y) : x = y := by
  have hd := congrArg String.data h
  simp [String.data_append] at hd
  cases x; cases y
  simp_all

theorem findIndexO_lt_length {α : Type} {p : α → Bool} {l : List α} {i : Nat}
    (h : findIndexO p l = some i) : i < l.length := by
  induction l generalizing i with
  | nil => simp [findIndexO] at h
  | cons a l ih =>
    by_cases hp : p a
    · simp [findIndexO, hp] at h
      simp [← h]
    · simp [findIndexO, hp] at h
      obtain ⟨j, hj, rfl⟩ := h
      have := ih hj
      simp only [List.length_cons]
      omega

theorem findIndexO_id_get (qs : List Question)
    (h : (qs.map (fun q => q.id)).Nodup) (j : Nat) (hj : j < qs.length) :
    findIndexO (fun x => x.id == (qs.get ⟨j, hj⟩).id) qs = some j := by
  induction qs generalizing j with
  | nil => simp at hj
  | cons a l ih =>
    simp only [List.map_cons, List.nodup_cons, List.mem_map] at h
    cases j with
    | zero => simp [findIndexO]
    | succ k =>
      have hk : k < l.length := by simpa using hj
      have hne : (a.id == (l.get ⟨k, hk⟩).id) = false := by
        by_contra hcon
        simp only [Bool.not_eq_false, beq_iff_eq] at hcon
        exact h.1 ⟨l.get ⟨k, hk⟩, List.get_mem l k hk, hcon.symm⟩
      show findIndexO (fun x => x.id == (l.get ⟨k, hk⟩).id) (a :: l) = some (k + 1)
      simp only [findIndexO, hne, Bool.false_eq_true, if_false]
      rw [ih h.2 k hk]
      rfl

theorem generateQuiz_ids_nodup (request : QuizGenerationRequest) (ts : Nat)
    (rand : Nat → Fin 4) (errored : Bool) (h4 : request.numQuestions = 4) :
    (((generateQuiz request ts rand errored).map convertAIQuestion).map
      (fun q => q.id)).Nodup := by
  cases errored with
  | true => simp [generateQuiz, getFallbackQuestions, convertAIQuestion]
  | false =>
    simp only [generateQuiz, Bool.false_eq_true, if_false, generateQuizBody, h4,
      List.map_map]
    have hr : List.range 4 = [0, 1, 2, 3] := by decide
    rw [hr]
    simp only [List.map_cons, List.map_nil, Function.comp, convertAIQuestion,
      List.nodup_cons, List.mem_cons, List.mem_singleton, List.not_mem_nil,
      List.nodup_nil]
    have hc : ∀ i j : Nat, toString i ≠ toString j →
        "q_" ++ toString ts ++ "_" ++ toString i ≠ "q_" ++ toString ts ++ "_" ++ toString j := by
      intro i j hij h
      exact hij (string_append_cancel_left ("q_" ++ toString ts ++ "_") _ _ h)
    refine ⟨?_, ?_, ?_, not_false, trivial⟩
    · rintro (h | h | h | h)
      · exact hc 0 1 (by decide) h
      · exact hc 0 2 (by decide) h
      · exact hc 0 3 (by decide) h
      · exact h
    · rintro (h | h | h)
      · exact hc 1 2 (by decide) h
      · exact hc 1 3 (by decide) h
      · exact h
    · rintro (h | h)
      · exact hc 2 3 (by decide) h
      · exact h

theorem generateQuiz_length (request : QuizGenerationRequest) (ts : Nat)
    (rand : Nat → Fin 4) (errored : Bool) :
    (generateQuiz request ts rand errored).length =
      if errored then 1 else request.numQuestions := by
  cases errored <;>
    simp [generateQuiz, getFallbackQuestions, generateQuizBody]

theorem sessionInv_select (s : ComponentState) (opt : String) (h : SessionInv s) :
    SessionInv (uiStep s (UIEvent.select opt)) := by
  simp only [uiStep]
  split
  · rcases hA : s.activeSession with _ | a
    · simp [SessionInv, hA]
    · simp only [SessionInv, hA] at h ⊢
      exact h
  · exact h

theorem sessionInv_pause (s : ComponentState) (h : SessionInv s) :
    SessionInv (uiStep s UIEvent.pause) := by
  simp only [uiStep]
  split
  case isTrue hg =>
    rcases hA : s.activeSession with _ | a
    · simp [hA] at hg
    · simp [pauseSession, hA, SessionInv]
  case isFalse => exact h

theorem sessionInv_submit (s : ComponentState) (logOk : Bool) (h : SessionInv s) :
    SessionInv (uiStep s (UIEvent.submit logOk)) := by
  simp only [uiStep]
  split
  case isTrue hg =>
    rcases hA : s.activeSession with _ | a
    · simp [hA] at hg
    rcases hQ : s.currentQuestion with _ | q
    · simp [hQ] at hg
    simp only [hA, hQ, Option.isSome_some, Bool.true_and, Bool.and_eq_true,
      Bool.not_eq_true', bne_iff_ne, ne_eq] at hg
    obtain ⟨hsr, hsel⟩ := hg
    simp only [SessionInv, hA, hQ, hsr] at h
    obtain ⟨hca, hnd, i, hfind, hle⟩ := h
    simp only [handleAnswerSubmit, hA, hQ]
    rw [if_neg hsel]
    simp only [SessionInv, hQ]
    simp only [if_false, Bool.false_eq_true, add_zero, if_true] at hle
    refine ⟨?_, hnd, i, hfind, ?_⟩
    · split <;> omega
    · simp only [if_true]
      omega
  case isFalse => exact h

theorem sessionInv_next (s : ComponentState) (h : SessionInv s) :
    SessionInv (uiStep s UIEvent.next) := by
  simp only [uiStep]
  split
  case isTrue hg =>
    rcases hA : s.activeSession with _ | a
    · simp [hA] at hg
    rcases hQ : s.currentQuestion with _ | q
    · simp [hQ] at hg
    simp only [hA, hQ, Option.isSome_some, Bool.true_and, Bool.and_eq_true] at hg
    have hsr : s.showResults = true := hg
    simp only [SessionInv, hA, hQ, hsr] at h
    obtain ⟨hca, hnd, i, hfind, hle⟩ := h
    simp only [if_true, if_pos] at hle
    have hiLen : i < s.currentQuestions.length := findIndexO_lt_length hfind
    have hlen0 : ¬ s.currentQuestions.length = 0 := by omega
    simp only [handleNextQuestion, hA, hQ]
    rw [if_neg hlen0]
    have hidx : jsFindIndex (fun x => x.id == q.id) s.currentQuestions = (i : Int) := by
      simp [jsFindIndex, hfind]
    rw [hidx]
    by_cases hlast : (i : Int) < (s.currentQuestions.length : Int) - 1
    · rw [if_pos hlast]
      have hi1 : i + 1 < s.currentQuestions.length := by omega
      have htn : ((i : Int) + 1).toNat = i + 1 := by omega
      rw [htn, List.get?_eq_get hi1]
      simp only [SessionInv]
      refine ⟨hca, hnd, i + 1, findIndexO_id_get _ hnd (i + 1) hi1, ?_⟩
      simp only [Bool.false_eq_true, if_false]
      omega
    · rw [if_neg hlast]
      simp [SessionInv]
  case isFalse => exact h

theorem sessionInv_create (s : ComponentState) (nd : NewSessionInput) (ts : Nat)
    (rand : Nat → Fin 4) (errored : Bool) (backendOk : Bool) (now : Nat)
    (startedAt : String) (h : SessionInv s) :
    SessionInv (createNewSession s nd ts rand errored backendOk now startedAt) := by
  simp only [createNewSession]
  by_cases hb : backendOk
  · rw [if_pos hb]
    have hnd :
        (((generateQuiz ⟨nd.subject_area, nd.topic, 1 / 2, 4⟩ ts rand errored).map
          convertAIQuestion).map (fun q => q.id)).Nodup :=
      generateQuiz_ids_nodup _ ts rand errored rfl
    have hlen :
        ((generateQuiz ⟨nd.subject_area, nd.topic, 1 / 2, 4⟩ ts rand errored).map
          convertAIQuestion).length ≠ 0 := by
      rw [List.length_map, generateQuiz_length]
      cases errored <;> simp
    rcases hqs : (generateQuiz ⟨nd.subject_area, nd.topic, 1 / 2, 4⟩ ts rand errored).map
        convertAIQuestion with _ | ⟨q0, rest⟩
    · rw [hqs] at hlen
      simp at hlen
    · rw [hqs] at hnd
      simp only [SessionInv, hqs, List.length_cons, List.head?_cons]
      have hpos : 0 < rest.length + 1 := Nat.succ_pos _
      rw [if_pos hpos]
      refine ⟨Nat.le_refl 0, hnd, 0, ?_, Nat.zero_le _⟩
      simp [findIndexO]
  · rw [if_neg hb]
    rcases hA : s.activeSession with _ | a
    · simp [SessionInv, hA]
    · simp only [SessionInv, hA] at h ⊢
      exact h

/-! ## Claim theorems -/

/-- C1 (amended). The chain `0 ≤ questions_correct ≤ questions_attempted ≤
length(Questions)` holds for every session from its creation through every
sequence of user events (select/submit/advance/pause): session creation
establishes the progression invariant, every UI event preserves it, and the
invariant entails the chain for the active session. (As stated over ALL
sessions the claim fails, because resuming a paused session regenerates a
fresh question list while preserving the counters — see the
counterexample.) -/
theorem c1_invariant_amended :
    (∀ (s : ComponentState) (nd : NewSessionInput) (ts : Nat) (rand : Nat → Fin 4)
        (errored backendOk : Bool) (now : Nat) (startedAt : String),
      SessionInv s →
        SessionInv (createNewSession s nd ts rand errored backendOk now startedAt)) ∧
    (∀ (s : ComponentState) (e : UIEvent), SessionInv s → SessionInv (uiStep s e)) ∧
    (∀ (s : ComponentState) (a : LearningSessionData), SessionInv s →
      s.activeSession = some a →
      a.questions_correct ≤ a.questions_attempted ∧
      a.questions_attempted ≤ s.currentQuestions.length) := by
  refine ⟨sessionInv_create, ?_, ?_⟩
  · intro s e h
    cases e with
    | select opt => exact sessionInv_select s opt h
    | submit logOk => exact sessionInv_submit s logOk h
    | next => exact sessionInv_next s h
    | pause => exact sessionInv_pause s h
  · intro s a h hA
    simp only [SessionInv, hA] at h
    obtain ⟨hca, hnd, hrest⟩ := h
    refine ⟨hca, ?_⟩
    rcases hQ : s.currentQuestion with _ | q
    · rw [hQ] at hrest
      omega
    · rw [hQ] at hrest
      obtain ⟨i, hfind, hle⟩ := hrest
      have := findIndexO_lt_length hfind
      split at hle <;> omega

/-- C1 witness: the invariant theorem applied at a concrete fresh creation
and a concrete follow-up event. -/
theorem c1_invariant_amended_witness :
    SessionInv cexCreated ∧ SessionInv (uiStep cexCreated (UIEvent.select "1776")) := by
  have h0 : SessionInv emptyComponentState := by simp [SessionInv, emptyComponentState]
  have h1 := c1_invariant_amended.1 emptyComponentState cexNd 0 cexRand false true 1 "t0" h0
  exact ⟨h1, c1_invariant_amended.2.1 _ (UIEvent.select "1776") h1⟩

/-- C1 counterexample: a session reached by create, two answered questions,
pause and resume, then three more answered questions, carries
`questions_attempted = 5` against a 4-question list — the claimed
`questions_attempted ≤ length(Questions)` fails. -/
theorem c1_counterexample :
    (cexOverrun.activeSession.map (fun a => a.questions_attempted)) = some 5 ∧
    cexOverrun.currentQuestions.length = 4 ∧
    ¬ ((cexOverrun.activeSession.map (fun a => a.questions_attempted)).getD 0 ≤
        cexOverrun.currentQuestions.length) := by
  decide

/-- C2. A valid submit while awaiting an answer computes correctness by
exact case-sensitive string equality of the selected option text with
`correct_answer`, increments `questions_attempted` by one, increments
`questions_correct` iff correct, recomputes
`accuracy_rate = (questions_correct / questions_attempted) * 100` from the
new counters, and moves to the result view of the same question. -/
theorem c2_submit_transition (s : ComponentState) (logOk : Bool)
    (a : LearningSessionData) (q : Question)
    (hA : s.activeSession = some a) (hQ : s.currentQuestion = some q)
    (hsr : s.showResults = false) (hsel : s.selectedAnswer ≠ "") :
    (uiStep s (UIEvent.submit logOk)).isCorrect = (s.selectedAnswer == q.correct_answer) ∧
    (uiStep s (UIEvent.submit logOk)).showResults = true ∧
    (uiStep s (UIEvent.submit logOk)).currentQuestion = some q ∧
    (uiStep s (UIEvent.submit logOk)).currentQuestions = s.currentQuestions ∧
    (uiStep s (UIEvent.submit logOk)).explanation = q.explanation ∧
    (uiStep s (UIEvent.submit logOk)).activeSession = some
      { a with
        questions_attempted := a.questions_attempted + 1
        questions_correct := a.questions_correct +
          (if s.selectedAnswer == q.correct_answer then 1 else 0)
        accuracy_rate :=
          (((a.questions_correct +
              (if s.selectedAnswer == q.correct_answer then 1 else 0) : Nat) : Rat) /
            ((a.questions_attempted + 1 : Nat) : Rat)) * 100 } := by
  have hg : (s.activeSession.isSome && s.currentQuestion.isSome && !s.showResults
      && s.selectedAnswer != "") = true := by
    simp [hA, hQ, hsr, hsel]
  simp only [uiStep, hg, if_true]
  simp [handleAnswerSubmit, hA, hQ, hsel]

/-- C2 witness: submitting the case-mismatched text `paris` against correct
answer `Paris` yields `isCorrect = false`, one attempt, zero correct. -/
theorem c2_submit_transition_witness :
    (uiStep parisState (UIEvent.submit true)).isCorrect = false ∧
    ((uiStep parisState (UIEvent.submit true)).activeSession.map
      (fun x => x.questions_attempted)) = some 1 ∧
    ((uiStep parisState (UIEvent.submit true)).activeSession.map
      (fun x => x.questions_correct)) = some 0 ∧
    (uiStep parisState (UIEvent.submit true)).showResults = true := by
  have h := c2_submit_transition parisState true demoSession parisQuestion rfl rfl rfl
    (by decide)
  refine ⟨?_, ?_, ?_, h.2.1⟩
  · rw [h.1]
    decide
  · rw [h.2.2.2.2.2]
    decide
  · rw [h.2.2.2.2.2]
    decide

/-- C3 (code bug, evaluation at the failing input). The AI generator stores
the correct answer as the LETTER `A` while `createNewSession` flattens the
options to their texts; question 1 of a freshly created History quiz
designates letter `A`, i.e. option text `George Washington`, yet submitting
exactly that text is scored incorrect (`isCorrect = false`, no
`questions_correct` increment) because the letter is compared with the text
without any normalization. -/
theorem c3_letter_vs_text_comparison :
    (cexCreated.currentQuestions.map (fun q => q.correct_answer)).head? = some "A" ∧
    (cexCreated.currentQuestions.map (fun q => q.options)).head? =
      some ["George Washington", "Thomas Jefferson", "Abraham Lincoln",
        "Benjamin Franklin"] ∧
    c3Submitted.selectedAnswer = "George Washington" ∧
    c3Submitted.isCorrect = false ∧
    (c3Submitted.activeSession.map (fun x => x.questions_correct)) = some 0 ∧
    (c3Submitted.activeSession.map (fun x => x.questions_attempted)) = some 1 := by
  decide

/-- C4. While the component is showing a result, the submit control is not
rendered, so a second submit event without an intervening advance leaves the
state — in particular both counters — completely unchanged. -/
theorem c4_no_double_submit (s : ComponentState) (logOk : Bool)
    (h : s.showResults = true) : uiStep s (UIEvent.submit logOk) = s := by
  simp [uiStep, h]

/-- C4 witness: a concrete showing-result state absorbs a repeated submit. -/
theorem c4_no_double_submit_witness :
    uiStep showingResultState (UIEvent.submit true) = showingResultState :=
  c4_no_double_submit showingResultState true (by decide)

/-- C5 (amended). Advancing from the last question clears the active
session, the current question and the question list and sets the completion
message, after which any further submit or advance event is a strict no-op;
the sessions list is left untouched, so the stored session keeps its prior
status instead of being marked `completed`. -/
theorem c5_completion_amended (s : ComponentState) (a : LearningSessionData)
    (q : Question) (i : Nat)
    (hA : s.activeSession = some a) (hQ : s.currentQuestion = some q)
    (hsr : s.showResults = true)
    (hfind : findIndexO (fun x => x.id == q.id) s.currentQuestions = some i)
    (hlast : i + 1 = s.currentQuestions.length) :
    (uiStep s UIEvent.next).activeSession = none ∧
    (uiStep s UIEvent.next).currentQuestion = none ∧
    (uiStep s UIEvent.next).currentQuestions = [] ∧
    (uiStep s UIEvent.next).sessions = s.sessions ∧
    (uiStep s UIEvent.next).successMessage = "Session completed! Great job!" ∧
    (∀ logOk, uiStep (uiStep s UIEvent.next) (UIEvent.submit logOk) = uiStep s UIEvent.next) ∧
    uiStep (uiStep s UIEvent.next) UIEvent.next = uiStep s UIEvent.next := by
  have hg : (s.activeSession.isSome && s.currentQuestion.isSome && s.showResults) = true := by
    simp [hA, hQ, hsr]
  have hlen0 : ¬ s.currentQuestions.length = 0 := by omega
  have hidx : jsFindIndex
      (fun x => match s.currentQuestion with
        | some cq => x.id == cq.id
        | none => false) s.currentQuestions = (i : Int) := by
    simp [jsFindIndex, hQ, hfind]
  have hnotlt : ¬ ((i : Int) < (s.currentQuestions.length : Int) - 1) := by omega
  have hstep : uiStep s UIEvent.next =
      ({ s with
          currentQuestion := none
          activeSession := none
          currentQuestions := []
          successMessage := "Session completed! Great job!" } : ComponentState) := by
    simp only [uiStep]
    rw [if_pos hg]
    simp only [handleNextQuestion, hA]
    rw [if_neg hlen0, hidx, if_neg hnotlt]
  rw [hstep]
  refine ⟨rfl, rfl, rfl, rfl, rfl, ?_, ?_⟩
  · intro logOk
    simp [uiStep]
  · simp [uiStep]

/-- C5 witness: the completion theorem applied at a concrete single-question
quiz showing its last result. -/
theorem c5_completion_amended_witness :
    (uiStep showingResultState UIEvent.next).activeSession = none ∧
    (uiStep showingResultState UIEvent.next).sessions = showingResultState.sessions := by
  have h := c5_completion_amended showingResultState
    { demoSession with questions_attempted := 1 } parisQuestion 0 rfl rfl rfl
    (by decide) (by decide)
  exact ⟨h.1, h.2.2.2.1⟩

/-- C5 counterexample: after answering all four questions of a freshly
created quiz and advancing from the last result, the stored session still
has status `active` — `advance()` from the last question never sets
`status = completed`. -/
theorem c5_counterexample :
    c5Completed.sessions.map (fun x => x.status) = ["active"] ∧
    c5Completed.activeSession = none ∧
    c5Completed.successMessage = "Session completed! Great job!" := by
  decide

/-- C6. When content generation fails during `createNewSession` of
`LearningSessionSimple` — the lesson or quiz call rejects, or the quiz
response contains an empty question list — no session is added (every state
cell is exactly as before) and the generation-failure error message is
surfaced to the caller. -/
theorem c6_generation_failure_no_session (s : SimpleState) (nd : NewSessionInput)
    (genLesson : Option LessonData) (genQuiz : Option QuizData)
    (backendSession : Option (Option String)) (now : Nat) (nowIso : String)
    (hfail : (nd.session_type = "lesson" ∧ genLesson = none) ∨
      (nd.session_type ≠ "lesson" ∧
        (genQuiz = none ∨ ∃ qd, genQuiz = some qd ∧ extractQuestions qd = []))) :
    (createNewSessionSimple s nd genLesson genQuiz backendSession now nowIso).sessions
        = s.sessions ∧
    (createNewSessionSimple s nd genLesson genQuiz backendSession now nowIso).activeSession
        = s.activeSession ∧
    (createNewSessionSimple s nd genLesson genQuiz backendSession now nowIso).currentQuestions
        = s.currentQuestions ∧
    (createNewSessionSimple s nd genLesson genQuiz backendSession now nowIso).currentQuestion
        = s.currentQuestion ∧
    (createNewSessionSimple s nd genLesson genQuiz backendSession now nowIso).error
        = "Failed to create AI-powered learning session" := by
  rcases hfail with ⟨hl, rfl⟩ | ⟨hq, hgen⟩
  · simp [createNewSessionSimple, hl]
  · rcases hgen with rfl | ⟨qd, rfl, hext⟩
    · simp [createNewSessionSimple, hq]
    · simp [createNewSessionSimple, hq, hext]

/-- C6 witness: a quiz response with a present-but-empty question array adds
nothing to an empty session collection and sets the error message. -/
theorem c6_generation_failure_no_session_witness :
    (createNewSessionSimple simpleEmptyState quizNd none (some emptyQuizData)
      none 5 "iso").sessions = [] ∧
    (createNewSessionSimple simpleEmptyState quizNd none (some emptyQuizData)
      none 5 "iso").error = "Failed to create AI-powered learning session" := by
  have h := c6_generation_failure_no_session simpleEmptyState quizNd none
    (some emptyQuizData) none 5 "iso"
    (Or.inr ⟨by decide, Or.inr ⟨emptyQuizData, rfl, by decide⟩⟩)
  exact ⟨h.1, h.2.2.2.2⟩

/-- C7. The outcome of the fire-and-forget `logInteraction` call never
influences the submit transition: the resulting state equals the
success-case state, the counters carry exactly the incremented transition
values, and no error is surfaced. -/
theorem c7_log_failure_swallowed (s : ComponentState) (logOk : Bool)
    (a : LearningSessionData) (q : Question)
    (hA : s.activeSession = some a) (hQ : s.currentQuestion = some q)
    (hsr : s.showResults = false) (hsel : s.selectedAnswer ≠ "") :
    uiStep s (UIEvent.submit logOk) = uiStep s (UIEvent.submit true) ∧
    ((uiStep s (UIEvent.submit logOk)).activeSession.map
      (fun x => x.questions_attempted)) = some (a.questions_attempted + 1) ∧
    ((uiStep s (UIEvent.submit logOk)).activeSession.map
      (fun x => x.questions_correct)) = some (a.questions_correct +
        (if s.selectedAnswer == q.correct_answer then 1 else 0)) ∧
    (uiStep s (UIEvent.submit logOk)).error = s.error := by
  have hg : (s.activeSession.isSome && s.currentQuestion.isSome && !s.showResults
      && s.selectedAnswer != "") = true := by
    simp [hA, hQ, hsr, hsel]
  simp only [uiStep, hg, if_true]
  simp [handleAnswerSubmit, hA, hQ, hsel]

/-- C7 witness: a failing log call after submitting on the Paris question
produces exactly the state of a successful one, with no surfaced error. -/
theorem c7_log_failure_swallowed_witness :
    uiStep parisState (UIEvent.submit false) = uiStep parisState (UIEvent.submit true) ∧
    (uiStep parisState (UIEvent.submit false)).error = parisState.error := by
  have h := c7_log_failure_swallowed parisState false demoSession parisQuestion rfl rfl rfl
    (by decide)
  exact ⟨h.1, h.2.2.2⟩

/-- C8 (amended). Resuming a stored session through `startSession` preserves
the session record — in particular `questions_attempted` — but regenerates a
fresh question list (of length 4, or 1 on generator fallback) and continues
from question index 0, not from the index matching the attempted count. -/
theorem c8_resume_regenerates (s : ComponentState) (session : LearningSessionData)
    (ts : Nat) (rand : Nat → Fin 4) (errored : Bool) :
    (startSession s session ts rand errored).activeSession = some session ∧
    currentIndexOf (startSession s session ts rand errored) = 0 ∧
    (startSession s session ts rand errored).currentQuestions.length =
      if errored then 1 else 4 := by
  have hlen : ((generateQuiz ⟨session.subject_area, session.topic, 1 / 2, 4⟩ ts rand
      errored).map convertAIQuestion).length = if errored then 1 else 4 := by
    rw [List.length_map, generateQuiz_length]
  rcases hqs : (generateQuiz ⟨session.subject_area, session.topic, 1 / 2, 4⟩ ts rand
      errored).map convertAIQuestion with _ | ⟨q0, rest⟩
  · rw [hqs] at hlen
    cases errored <;> simp at hlen
  · rw [hqs] at hlen
    refine ⟨rfl, ?_, ?_⟩
    · simp only [currentIndexOf, startSession]
      rw [hqs]
      simp [jsFindIndex, findIndexO]
    · simp only [startSession]
      rw [hqs]
      exact hlen

/-- C8 counterexample: a 4-question quiz paused with 2 attempted resumes
with `questions_attempted = 2` preserved but at question index 0 — not at
index 2 as the claim states. -/
theorem c8_counterexample :
    (cexPaused.sessions.map (fun x => (x.status, x.questions_attempted))) =
      [("paused", 2)] ∧
    (cexResumed.activeSession.map (fun x => x.questions_attempted)) = some 2 ∧
    cexResumed.currentQuestions.length = 4 ∧
    currentIndexOf cexResumed = 0 ∧
    currentIndexOf cexResumed ≠ 2 := by
  decide

/-- C9 (amended). A successful `createNewSession` unconditionally PREPENDS
the new session (most-recent-first, retrievable by its id as the first
match, made active), with no duplicate-id check of any kind. -/
theorem c9_addSession_prepends (s : ComponentState) (nd : NewSessionInput)
    (ts : Nat) (rand : Nat → Fin 4) (errored : Bool) (now : Nat) (startedAt : String) :
    ∃ ns : LearningSessionData,
      (createNewSession s nd ts rand errored true now startedAt).sessions
        = ns :: s.sessions ∧
      ns.id = now ∧ ns.status = "active" ∧ ns.questions_attempted = 0 ∧
      (createNewSession s nd ts rand errored true now startedAt).sessions.find?
        (fun x => x.id == now) = some ns ∧
      (createNewSession s nd ts rand errored true now startedAt).activeSession
        = some ns := by
  refine ⟨_, rfl, rfl, rfl, rfl, ?_, rfl⟩
  simp [createNewSession, List.find?]

/-- C9 counterexample: creating a session while `Date.now()` collides with a
stored id produces a collection with the duplicate id twice — the claimed
same-id no-op does not exist. -/
theorem c9_counterexample :
    c9Base.sessions.map (fun x => x.id) = [1] ∧
    c9Dup.sessions.map (fun x => x.id) = [1, 1] := by
  decide

/-- C10. For every request with at least one question, `generateQuiz` of the
AI quiz generator resolves with a non-empty question list on both its normal
path and its internal-failure fallback path. -/
theorem c10_generator_total (request : QuizGenerationRequest) (ts : Nat)
    (rand : Nat → Fin 4) (errored : Bool) (h : 1 ≤ request.numQuestions) :
    0 < (generateQuiz request ts rand errored).length := by
  rw [generateQuiz_length]
  cases errored with
  | false => simpa using h
  | true => simp

/-- C10 witness: a 4-question Science request yields non-empty output on
both the fallback and the normal path. -/
theorem c10_generator_total_witness :
    0 < (generateQuiz ⟨"Science", "Physics", 1 / 2, 4⟩ 0 cexRand true).length ∧
    0 < (generateQuiz ⟨"Science", "Physics", 1 / 2, 4⟩ 0 cexRand false).length :=
  ⟨c10_generator_total _ 0 cexRand true (by decide),
   c10_generator_total _ 0 cexRand false (by decide)⟩
